import Mathlib

/-!
Shallow embedding of the worker-pool core of `rust_server`
(src/src/thread_pool.rs, src/src/thread_pool/error_handler.rs, src/src/lib.rs).

Threads are modelled by their loop bodies: each body is a pure function from
the thread's view of the shared state (the mpsc channel contents, the shared
`is_dead` flag) to the updated state plus the observable actions of that
iteration.  mpsc channels are FIFO queues (`List`); `try_recv` pops the head
and the `unwrap_or_else` fallback produces the `Nothing`/dummy value on an
empty queue, exactly as in the source.  Jobs are identified by a `Nat` id
(the closure payload is opaque to the pool).  Log-line timestamp formatting
is abstracted away: a forwarded `Fatal` keeps its message text.
-/

namespace RustServer

/-- `ErrorType` from src/src/thread_pool/error_handler.rs: the signal values
carried on the three mpsc channels. -/
inductive ErrorType where
  | NonFatal (msg : String)
  | Fatal (msg : String)
  | Nothing (msg : String)
deriving DecidableEq

/-- `Message` from src/src/thread_pool.rs: the job-queue payload.  A job is
identified by a numeric id; `Nothing` is the dummy returned when the queue is
polled empty. -/
inductive Message where
  | Terminate
  | NewMessage (job : Nat)
  | Nothing (msg : String)
deriving DecidableEq

/-- `try_recv().unwrap_or_else(|_| ErrorType::Nothing(String::from("Nothing")))`
on a FIFO channel of error signals: pop the head, or the dummy on empty. -/
def tryRecvErr : List ErrorType → ErrorType × List ErrorType
  | [] => (ErrorType.Nothing "Nothing", [])
  | e :: rest => (e, rest)

/-- `try_recv().unwrap_or_else(|_| Message::Nothing(String::from("Nothing")))`
on the job queue: pop the head, or the dummy on empty. -/
def tryRecvMsg : List Message → Message × List Message
  | [] => (Message.Nothing "Nothing", [])
  | m :: rest => (m, rest)

/-- The three mpsc channels owned by `ErrorHandler`
(src/src/thread_pool/error_handler.rs): `errQueue` is the worker-error
channel (`err_sender`/`err_receiver`), `commsQueue` the operator-command
channel (`comms_sender`/`comms_recv`), `inputQueue` the shutdown-notify
channel (`input_sender`/`input_recv`).  `num` is the worker count. -/
structure ErrorHandler where
  errQueue : List ErrorType
  commsQueue : List ErrorType
  inputQueue : List ErrorType
  num : Nat
deriving DecidableEq

/-- `ErrorHandler::new(num)`: three fresh (empty) channels. -/
def ErrorHandler.new (num : Nat) : ErrorHandler :=
  { errQueue := [], commsQueue := [], inputQueue := [], num := num }

/-- `ErrorHandler::send`: a `NonFatal` is only logged; a `Fatal` is logged and
then forwarded on the worker-error channel (`err_sender`); `Nothing` is
ignored.  The timestamped log-line formatting is abstracted: the forwarded
`Fatal` keeps the message text. -/
def ErrorHandler.send (eh : ErrorHandler) (err : ErrorType) : ErrorHandler :=
  match err with
  | ErrorType.Fatal m => { eh with errQueue := eh.errQueue ++ [ErrorType.Fatal m] }
  | _ => eh

/-- One send performed by the supervisor's watcher thread, in program order:
`toInput` is a send on the shutdown-notify channel (`input_sender`), `toErr`
a send on the worker-error channel (`sender`). -/
inductive SendEvent where
  | toInput (e : ErrorType)
  | toErr (e : ErrorType)
deriving DecidableEq

/-- The ordered sequence of sends `close_checker` performs when it observes a
`Fatal` carrying `m`: first one `Fatal` to the shutdown-notify channel, then
one `Fatal` per worker on the worker-error channel. -/
def fanoutTrace (m : String) (n : Nat) : List SendEvent :=
  SendEvent.toInput (ErrorType.Fatal m) :: List.replicate n (SendEvent.toErr (ErrorType.Fatal m))

/-- One iteration of the loop body of `ErrorHandler::close_checker`
(src/src/thread_pool/error_handler.rs lines 106-142): poll the command
channel; on `Fatal` send one `Fatal` to the shutdown-notify channel, then one
`Fatal` per worker on the worker-error channel, and `break`.  Otherwise poll
the worker-error channel and do the same on `Fatal`.  Otherwise sleep and
loop.  Returns the updated channels, the ordered trace of sends performed,
and whether `break` was reached. -/
def watcherStep (eh : ErrorHandler) : ErrorHandler × List SendEvent × Bool :=
  match tryRecvErr eh.commsQueue with
  | (ErrorType.Fatal err, comms') =>
      ({ eh with commsQueue := comms',
                 inputQueue := eh.inputQueue ++ [ErrorType.Fatal err],
                 errQueue := eh.errQueue ++ List.replicate eh.num (ErrorType.Fatal err) },
       fanoutTrace err eh.num, true)
  | (_, comms') =>
      match tryRecvErr eh.errQueue with
      | (ErrorType.Fatal err2, errQ') =>
          ({ eh with commsQueue := comms',
                     inputQueue := eh.inputQueue ++ [ErrorType.Fatal err2],
                     errQueue := errQ' ++ List.replicate eh.num (ErrorType.Fatal err2) },
           fanoutTrace err2 eh.num, true)
      | (_, errQ') =>
          ({ eh with commsQueue := comms', errQueue := errQ' }, [], false)

/-- Iterating the watcher loop for `fuel` iterations (or until `break`):
returns the final channels, the concatenated send trace, and whether the
loop exited. -/
def watcherRun : Nat → ErrorHandler → ErrorHandler × List SendEvent × Bool
  | 0, eh => (eh, [], false)
  | Nat.succ fuel, eh =>
      let s := watcherStep eh
      if s.2.2 then (s.1, s.2.1, true)
      else
        let r := watcherRun fuel s.1
        (r.1, s.2.1 ++ r.2.1, r.2.2)

/-- Number of sends on the shutdown-notify channel in a trace; each fan-out
contributes exactly one, so this counts fan-outs. -/
def countToInput : List SendEvent → Nat
  | [] => 0
  | SendEvent.toInput _ :: rest => 1 + countToInput rest
  | SendEvent.toErr _ :: rest => countToInput rest

/-- A worker thread's view of the shared state: the job queue and the
worker-error channel. -/
structure WorkerEnv where
  jobQueue : List Message
  errQueue : List ErrorType
deriving DecidableEq

/-- How a worker iteration left the loop, if at all. -/
inductive WorkerExit where
  | running
  | terminated
  | fatalExit
deriving DecidableEq

/-- One iteration of the worker loop in `Worker::new`
(src/src/thread_pool.rs lines 205-237): poll the job queue; on
`NewMessage(job)` execute the job; on `Terminate` `break` at once (the error
channel is not polled); on `Nothing` do nothing.  Unless terminated, poll the
worker-error channel and `break` on `Fatal`.  Returns the updated view, the
job ids executed this iteration, and the exit status. -/
def workerStep (env : WorkerEnv) : WorkerEnv × List Nat × WorkerExit :=
  match tryRecvMsg env.jobQueue with
  | (Message.Terminate, jobQ') =>
      ({ env with jobQueue := jobQ' }, [], WorkerExit.terminated)
  | (Message.NewMessage job, jobQ') =>
      match tryRecvErr env.errQueue with
      | (ErrorType.Fatal _, errQ') =>
          ({ jobQueue := jobQ', errQueue := errQ' }, [job], WorkerExit.fatalExit)
      | (_, errQ') =>
          ({ jobQueue := jobQ', errQueue := errQ' }, [job], WorkerExit.running)
  | (Message.Nothing _, jobQ') =>
      match tryRecvErr env.errQueue with
      | (ErrorType.Fatal _, errQ') =>
          ({ jobQueue := jobQ', errQueue := errQ' }, [], WorkerExit.fatalExit)
      | (_, errQ') =>
          ({ jobQueue := jobQ', errQueue := errQ' }, [], WorkerExit.running)

/-- Iterating the worker loop for `fuel` iterations or until it breaks. -/
def workerRun : Nat → WorkerEnv → WorkerEnv × List Nat × WorkerExit
  | 0, env => (env, [], WorkerExit.running)
  | Nat.succ fuel, env =>
      let s := workerStep env
      match s.2.2 with
      | WorkerExit.running =>
          let r := workerRun fuel s.1
          (r.1, s.2.1 ++ r.2.1, r.2.2)
      | ex => (s.1, s.2.1, ex)

/-- Rust's `str::trim`: the string with leading and trailing whitespace
removed (over the character list, so that it evaluates by reduction). -/
def trimString (s : String) : String :=
  String.mk (((s.data.dropWhile Char.isWhitespace).reverse.dropWhile Char.isWhitespace).reverse)

/-- How one InputListener iteration ended: `exitFlag` is the `break` at the
`is_dead` check before anything else; `exitFatal` the `break` on a `Fatal`
polled from the channel the listener watches; `looped sentExit` means the
iteration printed the prompt, performed the blocking line-read, and continued
(`sentExit` records whether the trimmed line was the shutdown keyword). -/
inductive ListenerResult where
  | exitFlag
  | exitFatal
  | looped (sentExit : Bool)
deriving DecidableEq

/-- One iteration of the InputListener loop spawned by `ThreadPool::input`
(src/src/thread_pool.rs lines 130-170): first check the shared `is_dead`
flag and `break` if set; then poll `_err_recv` — which `ThreadPool::input`
clones from `error.get_err_recv()`, i.e. the WORKER-ERROR channel, not the
shutdown-notify channel — and `break` on `Fatal`; otherwise prompt, read
`line`, and if `line.trim() == "exit"` send `Fatal` on the command channel
and store `true` into the flag.  Returns the updated flag, the updated
channels, and how the iteration ended.  The shutdown-notify channel
(`inputQueue`) is never read here. -/
def listenerStep (isDead : Bool) (eh : ErrorHandler) (line : String) :
    Bool × ErrorHandler × ListenerResult :=
  if isDead then (isDead, eh, ListenerResult.exitFlag)
  else
    match tryRecvErr eh.errQueue with
    | (ErrorType.Fatal _, errQ') =>
        (isDead, { eh with errQueue := errQ' }, ListenerResult.exitFatal)
    | (_, errQ') =>
        if trimString line == "exit" then
          (true,
           { eh with errQueue := errQ',
                     commsQueue := eh.commsQueue ++ [ErrorType.Fatal "User asked to quit"] },
           ListenerResult.looped true)
        else (isDead, { eh with errQueue := errQ' }, ListenerResult.looped false)

/-- Iterating the listener loop for `fuel` iterations, feeding it the
operator's input lines in order: returns the number of prompts printed (one
per `looped` iteration) and whether the loop exited. -/
def listenerRun : Nat → Bool → ErrorHandler → List String → Nat × Bool
  | 0, _, _, _ => (0, false)
  | Nat.succ fuel, d, eh, lines =>
      let s := listenerStep d eh (lines.headD "")
      match s.2.2 with
      | ListenerResult.looped _ =>
          let r := listenerRun fuel s.1 s.2.1 lines.tail
          (r.1 + 1, r.2)
      | _ => (0, true)

/-- `ThreadPool` state (src/src/thread_pool.rs): the shared `is_dead` flag,
the job-queue contents, one entry per worker recording whether its
`JoinHandle` is still present (`Option::Some`, i.e. not yet joined), the
error handler's channels, whether the `err_thread` handle is still present,
and whether sends on the job channel fail (`senderDisconnected` models the
environment condition that every receiver is gone, making `send` return
`Err`). -/
structure Pool where
  isDead : Bool
  jobQueue : List Message
  workerHandles : List Bool
  eh : ErrorHandler
  errThreadHandle : Bool
  senderDisconnected : Bool
deriving DecidableEq

/-- `ThreadPool::new(num)` (src/src/thread_pool.rs lines 48-72): flag false,
fresh channels, `num` workers each holding a live join handle, the
`close_checker` thread handle present. -/
def ThreadPool.new (num : Nat) : Pool :=
  { isDead := false, jobQueue := [], workerHandles := List.replicate num true,
    eh := ErrorHandler.new num, errThreadHandle := true, senderDisconnected := false }

/-- `ThreadPool::is_dead` (src/src/thread_pool.rs lines 177-179): relaxed
load of the shared flag. -/
def ThreadPool.is_dead (p : Pool) : Bool :=
  p.isDead

/-- What one `ThreadPool::execute` call did. -/
inductive ExecuteOutcome where
  | rejected
  | enqueued
  | sendFailed
deriving DecidableEq

/-- `ThreadPool::execute` (src/src/thread_pool.rs lines 75-96): if the flag
is set, print "Cannot execute" and return without enqueuing (`rejected`).
Otherwise send `NewMessage(job)`; if the send fails, record a `Fatal` through
`ErrorHandler::send` (the `SendError` debug text is abstracted to
"SendError") and store `true` into the flag. -/
def ThreadPool.execute (p : Pool) (job : Nat) : Pool × ExecuteOutcome :=
  if p.isDead then (p, ExecuteOutcome.rejected)
  else if p.senderDisconnected then
    ({ p with eh := p.eh.send (ErrorType.Fatal "SendError"), isDead := true },
     ExecuteOutcome.sendFailed)
  else
    ({ p with jobQueue := p.jobQueue ++ [Message.NewMessage job] },
     ExecuteOutcome.enqueued)

/-- `ThreadPool::kill` (src/src/thread_pool.rs lines 100-116): if the flag is
already set, return `1` at once.  Otherwise, for each worker attempt one
`Terminate` send — the source writes `.ok()`, so a failed send is silently
discarded and the loop continues over all workers — then take and join every
worker handle, store `true` into the flag, and return `0`.  Besides the
resulting state and the returned status, the model exposes the list of send
results (one `Bool` per attempted send, `true` iff the channel accepted it)
so the send loop is observable. -/
def ThreadPool.kill (p : Pool) : Pool × Nat × List Bool :=
  if p.isDead then (p, 1, [])
  else
    let n := p.workerHandles.length
    let jobQueue' := if p.senderDisconnected then p.jobQueue
                     else p.jobQueue ++ List.replicate n Message.Terminate
    ({ p with jobQueue := jobQueue',
              workerHandles := p.workerHandles.map (fun _ => false),
              isDead := true },
     0, List.replicate n (!p.senderDisconnected))

/-- `Drop for ThreadPool` (src/src/thread_pool.rs lines 182-192): call
`kill`, then take and join the `err_thread` handle. -/
def ThreadPool.drop (p : Pool) : Pool :=
  let r := ThreadPool.kill p
  { r.1 with errThreadHandle := false }

/-- The effect of one iteration of the `ThreadPool::input` listener on the
pool's shared state (flag and channels), by `listenerStep`. -/
def ThreadPool.inputStep (p : Pool) (line : String) : Pool :=
  let r := listenerStep p.isDead p.eh line
  { p with isDead := r.1, eh := r.2.1 }

/-- `Server` state (src/src/lib.rs): the pool, the stored worker count, and
whether the input-thread handle is present. -/
structure ServerState where
  threadpool : Pool
  workers : Nat
  inputThreadHandle : Bool
deriving DecidableEq

/-- `Server::new` (src/src/lib.rs lines 43-55): `assert!(num > 0)` — the
panic on a violated assertion is modelled as `Except.error` — then build the
pool and spawn the input thread. -/
def Server.new (num : Nat) : Except String ServerState :=
  if num > 0 then
    Except.ok { threadpool := ThreadPool.new num, workers := num, inputThreadHandle := true }
  else Except.error "assertion failed: num > 0"

/-- The operations that touch the shared `is_dead` flag during a pool's
lifetime: a `submit` (`ThreadPool::execute`), a `shutdown`
(`ThreadPool::kill`), a teardown (`Drop for ThreadPool`), one InputListener
iteration fed an operator line, and the environment event that disconnects
the job channel (all receivers gone). -/
inductive PoolEvent where
  | submit (job : Nat)
  | shutdown
  | teardown
  | operatorLine (line : String)
  | disconnect
deriving DecidableEq

/-- Apply one lifetime event to the pool state. -/
def poolEventStep (p : Pool) (ev : PoolEvent) : Pool :=
  match ev with
  | PoolEvent.submit job => (ThreadPool.execute p job).1
  | PoolEvent.shutdown => (ThreadPool.kill p).1
  | PoolEvent.teardown => ThreadPool.drop p
  | PoolEvent.operatorLine line => ThreadPool.inputStep p line
  | PoolEvent.disconnect => { p with senderDisconnected := true }

/-- The sequence of `is_dead` values observed along a run: the flag before
any event, then after each successive event. -/
def flagTrace (p : Pool) : List PoolEvent → List Bool
  | [] => [p.isDead]
  | ev :: rest => p.isDead :: flagTrace (poolEventStep p ev) rest

/-- A Boolean sequence never steps from `true` back to `false`. -/
def monoFlags : List Bool → Bool
  | [] => true
  | [_] => true
  | a :: b :: rest => (!a || b) && monoFlags (b :: rest)

/-- Number of `false` → `true` transitions in a Boolean sequence. -/
def countRises : List Bool → Nat
  | [] => 0
  | [_] => 0
  | a :: b :: rest => (if !a && b then 1 else 0) + countRises (b :: rest)

/-- A single `Fatal` injected on the command channel of a one-worker pool's
error handler: the scenario of spec §8's fault-injection property. -/
def ehInjected : ErrorHandler :=
  { ErrorHandler.new 1 with commsQueue := [ErrorType.Fatal "boom"] }

/-- The error-handler state after the watcher's fan-out on `ehInjected` and
after the single worker has consumed its broadcast `Fatal`: the only signal
left in the system is the `Fatal` on the shutdown-notify channel. -/
def ehNotifyOnly : ErrorHandler :=
  { ErrorHandler.new 1 with inputQueue := [ErrorType.Fatal "boom"] }

lemma countToInput_replicate_toErr (n : Nat) (e : ErrorType) :
    countToInput (List.replicate n (SendEvent.toErr e)) = 0 := by
  induction n with
  | zero => rfl
  | succ k ih => simpa [List.replicate, countToInput] using ih

lemma countToInput_fanout (m : String) (n : Nat) :
    countToInput (fanoutTrace m n) = 1 := by
  simp [fanoutTrace, countToInput, countToInput_replicate_toErr]

lemma countToInput_append (a b : List SendEvent) :
    countToInput (a ++ b) = countToInput a + countToInput b := by
  induction a with
  | nil => simp [countToInput]
  | cons x rest ih => cases x <;> simp [countToInput, ih, Nat.add_assoc]

/-- Each watcher iteration either performs no send and continues, or performs
exactly one fan-out (one shutdown-notify send followed by `num` worker-error
sends) and exits. -/
lemma watcherStep_trace (eh : ErrorHandler) :
    ((watcherStep eh).2.1 = [] ∧ (watcherStep eh).2.2 = false) ∨
    (∃ m, (watcherStep eh).2.1 = fanoutTrace m eh.num ∧ (watcherStep eh).2.2 = true) := by
  obtain ⟨errQ, commsQ, inputQ, n⟩ := eh
  rcases commsQ with _ | ⟨c, crest⟩
  · rcases errQ with _ | ⟨e, erest⟩
    · left; exact ⟨rfl, rfl⟩
    · cases e with
      | Fatal m => right; exact ⟨m, rfl, rfl⟩
      | NonFatal m => left; exact ⟨rfl, rfl⟩
      | Nothing m => left; exact ⟨rfl, rfl⟩
  · cases c with
    | Fatal m => right; exact ⟨m, rfl, rfl⟩
    | NonFatal m =>
        rcases errQ with _ | ⟨e, erest⟩
        · left; exact ⟨rfl, rfl⟩
        · cases e with
          | Fatal m2 => right; exact ⟨m2, rfl, rfl⟩
          | NonFatal m2 => left; exact ⟨rfl, rfl⟩
          | Nothing m2 => left; exact ⟨rfl, rfl⟩
    | Nothing m =>
        rcases errQ with _ | ⟨e, erest⟩
        · left; exact ⟨rfl, rfl⟩
        · cases e with
          | Fatal m2 => right; exact ⟨m2, rfl, rfl⟩
          | NonFatal m2 => left; exact ⟨rfl, rfl⟩
          | Nothing m2 => left; exact ⟨rfl, rfl⟩

/-- Over any number of iterations, the watcher sends at most one signal on
the shutdown-notify channel: the fan-out happens at most once per lifetime. -/
lemma watcherRun_count_le_one (fuel : Nat) (eh : ErrorHandler) :
    countToInput (watcherRun fuel eh).2.1 ≤ 1 := by
  induction fuel generalizing eh with
  | zero => simp [watcherRun, countToInput]
  | succ k ih =>
      rcases watcherStep_trace eh with ⟨h1, h2⟩ | ⟨m, h1, h2⟩
      · simpa [watcherRun, h2, h1, countToInput_append, countToInput] using ih (watcherStep eh).1
      · simp [watcherRun, h2, h1, countToInput_fanout]

/-- The listener's loop body never touches the shutdown-notify channel. -/
lemma listenerStep_inputQueue (d : Bool) (eh : ErrorHandler) (line : String) :
    ((listenerStep d eh line).2.1).inputQueue = eh.inputQueue := by
  cases d
  · rcases h : tryRecvErr eh.errQueue with ⟨e, q⟩
    cases e <;> simp [listenerStep, h] <;> split_ifs <;> rfl
  · rfl

/-- With only the shutdown-notify `Fatal` present, the listener loops
(prompting each iteration) and never exits, no matter how long it runs. -/
lemma listenerRun_notify_stuck :
    ∀ fuel, listenerRun fuel false ehNotifyOnly [] = (fuel, false) := by
  intro fuel
  induction fuel with
  | zero => rfl
  | succ n ih =>
      have hstep : listenerStep false ehNotifyOnly "" = (false, ehNotifyOnly, ListenerResult.looped false) := rfl
      simp [listenerRun, hstep, ih]

/-- A worker whose job queue and error channel stay empty runs forever. -/
lemma workerRun_empty_running :
    ∀ fuel, workerRun fuel { jobQueue := [], errQueue := [] }
      = ({ jobQueue := [], errQueue := [] }, [], WorkerExit.running) := by
  intro fuel
  induction fuel with
  | zero => rfl
  | succ n ih =>
      have hstep : workerStep { jobQueue := [], errQueue := [] }
          = ({ jobQueue := [], errQueue := [] }, [], WorkerExit.running) := rfl
      simp [workerRun, hstep, ih]

/-- One listener iteration either leaves the shared flag as it was or stores
`true`; it never stores `false`. -/
lemma listenerStep_flag (d : Bool) (eh : ErrorHandler) (line : String) :
    (listenerStep d eh line).1 = d ∨ (listenerStep d eh line).1 = true := by
  cases d
  · rcases h : tryRecvErr eh.errQueue with ⟨e, q⟩
    cases e with
    | NonFatal m =>
        by_cases ht : (trimString line == "exit") = true <;> simp [listenerStep, h, ht]
    | Fatal m => simp [listenerStep, h]
    | Nothing m =>
        by_cases ht : (trimString line == "exit") = true <;> simp [listenerStep, h, ht]
  · left; rfl

/-- Every lifetime operation either leaves the `is_dead` flag as it was or
stores `true`; no operation resets it to `false`. -/
lemma poolEventStep_flag (p : Pool) (ev : PoolEvent) :
    (poolEventStep p ev).isDead = p.isDead ∨ (poolEventStep p ev).isDead = true := by
  cases ev with
  | submit job =>
      cases h : p.isDead
      · cases h2 : p.senderDisconnected <;>
          simp [poolEventStep, ThreadPool.execute, h, h2]
      · simp [poolEventStep, ThreadPool.execute, h]
  | shutdown =>
      cases h : p.isDead <;> simp [poolEventStep, ThreadPool.kill, h]
  | teardown =>
      cases h : p.isDead <;> simp [poolEventStep, ThreadPool.drop, ThreadPool.kill, h]
  | operatorLine line =>
      rcases listenerStep_flag p.isDead p.eh line with h | h <;>
        simp [poolEventStep, ThreadPool.inputStep, h]
  | disconnect => left; rfl

/-- Once the `is_dead` flag is `true`, it stays `true` under every lifetime
operation. -/
lemma poolEventStep_mono (p : Pool) (ev : PoolEvent) (h : p.isDead = true) :
    (poolEventStep p ev).isDead = true := by
  cases ev with
  | submit job => simp [poolEventStep, ThreadPool.execute, h]
  | shutdown => simp [poolEventStep, ThreadPool.kill, h]
  | teardown => simp [poolEventStep, ThreadPool.drop, ThreadPool.kill, h]
  | operatorLine line => simp [poolEventStep, ThreadPool.inputStep, listenerStep, h]
  | disconnect => simpa [poolEventStep] using h

/-- The flag sequence observed along any run is monotone: it never steps from
`true` back to `false`. -/
lemma flagTrace_monoFlags (p : Pool) (evs : List PoolEvent) :
    monoFlags (flagTrace p evs) = true := by
  induction evs generalizing p with
  | nil => rfl
  | cons ev rest ih =>
      obtain ⟨t, ht⟩ : ∃ t, flagTrace (poolEventStep p ev) rest
          = (poolEventStep p ev).isDead :: t := by
        cases rest <;> exact ⟨_, rfl⟩
      have hmono : (!p.isDead || (poolEventStep p ev).isDead) = true := by
        cases h : p.isDead
        · rfl
        · simp [poolEventStep_mono p ev h]
      rw [show flagTrace p (ev :: rest) = p.isDead :: flagTrace (poolEventStep p ev) rest from rfl, ht]
      show ((!p.isDead || (poolEventStep p ev).isDead)
          && monoFlags ((poolEventStep p ev).isDead :: t)) = true
      rw [← ht, ih (poolEventStep p ev), hmono]
      rfl

/-- A monotone Boolean sequence that starts at `true` has no rise at all. -/
lemma countRises_true_zero :
    ∀ l : List Bool, monoFlags (true :: l) = true → countRises (true :: l) = 0 := by
  intro l
  induction l with
  | nil => intro _; rfl
  | cons b rest ih =>
      intro h
      have hb : b = true := by
        cases b
        · simp [monoFlags] at h
        · rfl
      subst hb
      have h2 : monoFlags (true :: rest) = true := by
        have h' : ((!true || true) && monoFlags (true :: rest)) = true := h
        simpa using h'
      show (if !true && true then 1 else 0) + countRises (true :: rest) = 0
      simp [ih h2]

/-- A monotone Boolean sequence has at most one `false` → `true` rise. -/
lemma countRises_le_one : ∀ l : List Bool, monoFlags l = true → countRises l ≤ 1 := by
  intro l
  induction l with
  | nil => intro _; simp [countRises]
  | cons a t ih =>
      cases t with
      | nil => intro _; simp [countRises]
      | cons b rest =>
          intro h
          have hm : monoFlags (b :: rest) = true := by
            have h' : ((!a || b) && monoFlags (b :: rest)) = true := h
            simp only [Bool.and_eq_true] at h'
            exact h'.2
          cases a with
          | true => simp [countRises_true_zero (b :: rest) h]
          | false =>
              cases b with
              | true =>
                  show (if !false && true then 1 else 0) + countRises (true :: rest) ≤ 1
                  simp [countRises_true_zero rest hm]
              | false =>
                  show (if !false && false then 1 else 0) + countRises (false :: rest) ≤ 1
                  simpa using ih hm

/-- C1: the claim says the watcher's listener-bound `Fatal` travels on the
shutdown-notify channel and that the InputListener checks that channel each
iteration and stops on a `Fatal` there.  The first half holds: the fan-out
on a command-channel `Fatal` does put one `Fatal` on the shutdown-notify
channel.  The second half fails in the code: `ThreadPool::input` clones
`_err_recv`, the worker-error channel, and never reads the shutdown-notify
channel (whose receiver accessor the source marks dead).  So once the single
broadcast `Fatal` of a one-worker pool has been consumed by the worker, the
listener — with a `Fatal` sitting unread on the shutdown-notify channel —
prompts on every iteration and never stops. -/
theorem C1_notify_channel_never_read :
    (watcherStep ehInjected).1.inputQueue = [ErrorType.Fatal "boom"] ∧
    (∀ d eh line, ((listenerStep d eh line).2.1).inputQueue = eh.inputQueue) ∧
    (workerStep { jobQueue := [], errQueue := (watcherStep ehInjected).1.errQueue }).2.2
      = WorkerExit.fatalExit ∧
    (∀ fuel, listenerRun fuel false ehNotifyOnly [] = (fuel, false)) :=
  ⟨rfl, listenerStep_inputQueue, rfl, listenerRun_notify_stuck⟩

/-- C2 counterexample: a pool that became dead through a fatal condition (a
failed job-queue send during `execute`) still holds its worker's join
handle; `kill` on it returns the already-dead status at once and teardown
(`drop`) returns with the worker never joined. -/
theorem C2_cex_dead_pool_worker_never_joined :
    ((ThreadPool.execute { ThreadPool.new 1 with senderDisconnected := true } 0).1.isDead = true) ∧
    ThreadPool.kill (ThreadPool.execute { ThreadPool.new 1 with senderDisconnected := true } 0).1
      = ((ThreadPool.execute { ThreadPool.new 1 with senderDisconnected := true } 0).1, 1,
         ([] : List Bool)) ∧
    (ThreadPool.drop (ThreadPool.execute { ThreadPool.new 1 with senderDisconnected := true } 0).1).workerHandles
      = [true] :=
  ⟨rfl, rfl, rfl⟩

/-- C2 (amended): after `shutdown()` of a pool that is NOT yet dead,
`is_dead()` is true and every worker handle has been joined before teardown
returns; but `shutdown()` of an already-dead pool returns the already-dead
status immediately, sending nothing and joining nothing. -/
theorem C2_shutdown_joins_only_live_pool (p : Pool) :
    (p.isDead = false →
      ThreadPool.is_dead (ThreadPool.kill p).1 = true ∧
      (ThreadPool.kill p).1.workerHandles.all Bool.not = true ∧
      ThreadPool.is_dead (ThreadPool.drop p) = true ∧
      (ThreadPool.drop p).workerHandles.all Bool.not = true) ∧
    (p.isDead = true → ThreadPool.kill p = (p, 1, ([] : List Bool))) := by
  constructor
  · intro h
    refine ⟨?_, ?_, ?_, ?_⟩ <;>
      simp [ThreadPool.kill, ThreadPool.drop, ThreadPool.is_dead, h, List.all_eq_true]
  · intro h
    simp [ThreadPool.kill, h]

/-- C2 witness: concrete two-worker pool, shutdown from the live state. -/
theorem C2_shutdown_joins_witness :
    ThreadPool.is_dead (ThreadPool.kill (ThreadPool.new 2)).1 = true ∧
    (ThreadPool.kill (ThreadPool.new 2)).1.workerHandles.all Bool.not = true :=
  ⟨((C2_shutdown_joins_only_live_pool (ThreadPool.new 2)).1 rfl).1,
   ((C2_shutdown_joins_only_live_pool (ThreadPool.new 2)).1 rfl).2.1⟩

/-- C3 counterexample: killing a live two-worker pool whose job channel is
disconnected attempts BOTH `Terminate` sends (no short-circuit: the result
list has one entry per worker, both failed) and still returns status `0` —
the same value a fully clean shutdown returns, so no status distinguishes a
send failure. -/
theorem C3_cex_send_failure_not_distinguished :
    (ThreadPool.kill { ThreadPool.new 2 with senderDisconnected := true }).2.2 = [false, false] ∧
    (ThreadPool.kill { ThreadPool.new 2 with senderDisconnected := true }).2.1 = 0 ∧
    (ThreadPool.kill (ThreadPool.new 2)).2.1 = 0 :=
  ⟨rfl, rfl, rfl⟩

/-- C3 (amended): a `Terminate` send failure during `shutdown()` of a live
pool is silently ignored (`.ok()`): one send is attempted per worker
regardless of failures, failed sends enqueue nothing, the pool still becomes
dead, and the returned status is `0` — the only distinguished status is `1`
for a pool that was already dead. -/
theorem C3_kill_ignores_send_failures (p : Pool) (h : p.isDead = false) :
    (ThreadPool.kill p).2.1 = 0 ∧
    (ThreadPool.kill p).2.2 = List.replicate p.workerHandles.length (!p.senderDisconnected) ∧
    (p.senderDisconnected = true → (ThreadPool.kill p).1.jobQueue = p.jobQueue) ∧
    (ThreadPool.kill p).1.isDead = true := by
  refine ⟨?_, ?_, ?_, ?_⟩
  · simp [ThreadPool.kill, h]
  · simp [ThreadPool.kill, h]
  · intro h2
    simp [ThreadPool.kill, h, h2]
  · simp [ThreadPool.kill, h]

/-- C3 witness: concrete live pool with a disconnected job channel. -/
theorem C3_kill_ignores_witness :
    (ThreadPool.kill { ThreadPool.new 2 with senderDisconnected := true }).2.1 = 0 ∧
    (ThreadPool.kill { ThreadPool.new 2 with senderDisconnected := true }).1.isDead = true :=
  ⟨(C3_kill_ignores_send_failures { ThreadPool.new 2 with senderDisconnected := true } rfl).1,
   (C3_kill_ignores_send_failures { ThreadPool.new 2 with senderDisconnected := true } rfl).2.2.2⟩

/-- C4: injecting one `Fatal` on the command channel of a one-worker pool
makes the watcher broadcast exactly `num = 1` worker-error `Fatal`s — but
the InputListener polls that same worker-error channel (it has no other way
to stop, since it never reads the shutdown-notify channel), so when it stops
it consumes the single broadcast `Fatal`, and the worker, left with empty
queues, never receives a `Terminate` or `Fatal` and runs forever: `N`
broadcast signals are shared among `N + 1` consumers. -/
theorem C4_fanout_starves_a_consumer :
    (watcherStep ehInjected).1.errQueue = [ErrorType.Fatal "boom"] ∧
    (listenerStep false (watcherStep ehInjected).1 "ls").2.2 = ListenerResult.exitFatal ∧
    ((listenerStep false (watcherStep ehInjected).1 "ls").2.1).errQueue = [] ∧
    (∀ fuel, workerRun fuel { jobQueue := [], errQueue := [] }
      = ({ jobQueue := [], errQueue := [] }, [], WorkerExit.running)) :=
  ⟨rfl, rfl, rfl, workerRun_empty_running⟩

/-- C5: when `close_checker` observes a `Fatal` on the command channel — or,
the command poll yielding no `Fatal`, on the worker-error channel — it sends
exactly one `Fatal` on the shutdown-notify channel first, then exactly `num`
`Fatal`s on the worker-error channel (the trace `fanoutTrace` records this
order), and exits its loop; over any whole run the fan-out therefore happens
at most once. -/
theorem C5_close_checker_fanout (eh : ErrorHandler) (m : String) (fuel : Nat) :
    ((tryRecvErr eh.commsQueue).1 = ErrorType.Fatal m →
      watcherStep eh =
        ({ eh with commsQueue := (tryRecvErr eh.commsQueue).2,
                   inputQueue := eh.inputQueue ++ [ErrorType.Fatal m],
                   errQueue := eh.errQueue ++ List.replicate eh.num (ErrorType.Fatal m) },
         fanoutTrace m eh.num, true)) ∧
    ((∀ s, (tryRecvErr eh.commsQueue).1 ≠ ErrorType.Fatal s) →
      (tryRecvErr eh.errQueue).1 = ErrorType.Fatal m →
      (watcherStep eh).2.1 = fanoutTrace m eh.num ∧ (watcherStep eh).2.2 = true ∧
      (watcherStep eh).1.inputQueue = eh.inputQueue ++ [ErrorType.Fatal m] ∧
      (watcherStep eh).1.errQueue
        = (tryRecvErr eh.errQueue).2 ++ List.replicate eh.num (ErrorType.Fatal m)) ∧
    countToInput (watcherRun fuel eh).2.1 ≤ 1 := by
  refine ⟨?_, ?_, watcherRun_count_le_one fuel eh⟩
  · intro h
    rcases hc : tryRecvErr eh.commsQueue with ⟨c, comms'⟩
    rw [hc] at h
    simp only at h
    subst h
    simp [watcherStep, hc]
  · intro h1 h2
    rcases hc : tryRecvErr eh.commsQueue with ⟨c, comms'⟩
    rw [hc] at h1
    simp only at h1
    rcases he : tryRecvErr eh.errQueue with ⟨e, errQ'⟩
    rw [he] at h2
    simp only at h2
    subst h2
    cases c with
    | Fatal s => exact absurd rfl (h1 s)
    | NonFatal s => simp [watcherStep, hc, he]
    | Nothing s => simp [watcherStep, hc, he]

/-- C5 witness: a two-worker handler with a `Fatal` on the command channel. -/
theorem C5_close_checker_witness :
    (watcherStep { ErrorHandler.new 2 with commsQueue := [ErrorType.Fatal "boom"] }).2.1
      = fanoutTrace "boom" ({ ErrorHandler.new 2 with commsQueue := [ErrorType.Fatal "boom"] } : ErrorHandler).num ∧
    countToInput (watcherRun 4 { ErrorHandler.new 2 with commsQueue := [ErrorType.Fatal "boom"] }).2.1 ≤ 1 := by
  have h := C5_close_checker_fanout
    { ErrorHandler.new 2 with commsQueue := [ErrorType.Fatal "boom"] } "boom" 4
  exact ⟨by rw [h.1 rfl], h.2.2⟩

/-- C6: the shared `is_dead` flag starts `false` at `ThreadPool::new`; every
lifetime operation (submit, shutdown, teardown, a listener iteration, or the
job channel disconnecting) either leaves it unchanged or stores `true`, and
never stores `false`; hence along any event sequence the flag rises
`false` → `true` at most once, and once `is_dead()` is `true` it is `true`
forever. -/
theorem C6_liveness_flag_true_once (num : Nat) (evs : List PoolEvent) :
    (ThreadPool.new num).isDead = false ∧
    (∀ p ev, (poolEventStep p ev).isDead = p.isDead ∨ (poolEventStep p ev).isDead = true) ∧
    (∀ p ev, p.isDead = true → (poolEventStep p ev).isDead = true) ∧
    countRises (flagTrace (ThreadPool.new num) evs) ≤ 1 :=
  ⟨rfl, poolEventStep_flag, poolEventStep_mono,
   countRises_le_one _ (flagTrace_monoFlags _ _)⟩

/-- C6 witness: a run of a two-worker pool in which the flag actually rises
(a submit on a disconnected channel) followed by further operations. -/
theorem C6_liveness_flag_witness :
    (ThreadPool.new 2).isDead = false ∧
    countRises (flagTrace (ThreadPool.new 2)
      [PoolEvent.submit 1, PoolEvent.disconnect, PoolEvent.submit 2, PoolEvent.shutdown]) ≤ 1 :=
  ⟨(C6_liveness_flag_true_once 2
      [PoolEvent.submit 1, PoolEvent.disconnect, PoolEvent.submit 2, PoolEvent.shutdown]).1,
   (C6_liveness_flag_true_once 2
      [PoolEvent.submit 1, PoolEvent.disconnect, PoolEvent.submit 2, PoolEvent.shutdown]).2.2.2⟩

/-- C7: a second `shutdown()` observes the pool dead and returns the
already-dead status `1` with no sends (empty send-result list) and no joins,
leaving the state exactly as the first call left it; a second teardown is
likewise a no-op. -/
theorem C7_shutdown_idempotent (p : Pool) :
    ThreadPool.kill (ThreadPool.kill p).1 = ((ThreadPool.kill p).1, 1, ([] : List Bool)) ∧
    ThreadPool.drop (ThreadPool.drop p) = ThreadPool.drop p := by
  obtain ⟨d, q, w, eh, et, sd⟩ := p
  cases d
  · exact ⟨by simp [ThreadPool.kill], by simp [ThreadPool.drop, ThreadPool.kill]⟩
  · exact ⟨by simp [ThreadPool.kill], by simp [ThreadPool.drop, ThreadPool.kill]⟩

/-- C7 witness: concrete three-worker pool. -/
theorem C7_shutdown_idempotent_witness :
    ThreadPool.kill (ThreadPool.kill (ThreadPool.new 3)).1
      = ((ThreadPool.kill (ThreadPool.new 3)).1, 1, ([] : List Bool)) :=
  (C7_shutdown_idempotent (ThreadPool.new 3)).1

/-- C8: submitting a job while `is_dead()` is true logs the rejection and
returns with the pool state — queue and flag included — unchanged: nothing
is enqueued, so the job is never executed, no error reaches the caller, and
nothing blocks. -/
theorem C8_submit_after_death_rejected (p : Pool) (job : Nat)
    (h : ThreadPool.is_dead p = true) :
    ThreadPool.execute p job = (p, ExecuteOutcome.rejected) := by
  have h' : p.isDead = true := h
  simp [ThreadPool.execute, h']

/-- C8 witness: a dead one-worker pool rejects job `7` unchanged. -/
theorem C8_submit_after_death_witness :
    ThreadPool.execute { ThreadPool.new 1 with isDead := true } 7
      = ({ ThreadPool.new 1 with isDead := true }, ExecuteOutcome.rejected) :=
  C8_submit_after_death_rejected { ThreadPool.new 1 with isDead := true } 7 rfl

/-- C9: the constructor exposed to collaborators, `Server::new`, takes
exactly the worker count; with count `0` its `assert!(num > 0)` aborts
construction (modelled as `Except.error`), and for every positive count
construction succeeds and the pool holds exactly that many workers. -/
theorem C9_constructor_worker_count (num : Nat) (h : 0 < num) :
    (∃ e, Server.new 0 = Except.error e) ∧
    Server.new num
      = Except.ok { threadpool := ThreadPool.new num, workers := num, inputThreadHandle := true } ∧
    (ThreadPool.new num).workerHandles.length = num := by
  refine ⟨⟨"assertion failed: num > 0", rfl⟩, ?_, ?_⟩
  · simp [Server.new, h]
  · simp [ThreadPool.new]

/-- C9 witness: three workers. -/
theorem C9_constructor_witness :
    Server.new 3
      = Except.ok { threadpool := ThreadPool.new 3, workers := 3, inputThreadHandle := true } ∧
    (ThreadPool.new 3).workerHandles.length = 3 :=
  ⟨(C9_constructor_worker_count 3 (by decide)).2.1,
   (C9_constructor_worker_count 3 (by decide)).2.2⟩

/-- C10: when the shared flag is already true, the listener's iteration
exits at the very first check — before polling any channel (the channels
come back untouched) and before printing a prompt or reading a line — and a
whole run from such a state prints zero prompts, whether or not any `Fatal`
is ever delivered. -/
theorem C10_listener_checks_flag_first (d : Bool) (eh : ErrorHandler) (line : String)
    (lines : List String) (fuel : Nat) (h : d = true) :
    listenerStep d eh line = (d, eh, ListenerResult.exitFlag) ∧
    (listenerRun fuel d eh lines).1 = 0 := by
  subst h
  refine ⟨rfl, ?_⟩
  cases fuel
  · rfl
  · rfl

/-- C10 witness: flag already true, fresh channels, five iterations. -/
theorem C10_listener_flag_witness :
    listenerStep true (ErrorHandler.new 1) "ls"
      = (true, ErrorHandler.new 1, ListenerResult.exitFlag) ∧
    (listenerRun 5 true (ErrorHandler.new 1) []).1 = 0 :=
  ⟨(C10_listener_checks_flag_first true (ErrorHandler.new 1) "ls" [] 5 rfl).1,
   (C10_listener_checks_flag_first true (ErrorHandler.new 1) "ls" [] 5 rfl).2⟩

end RustServer
